import Mathlib

/-!
Verification of the EDFL hallucination-risk validator
(`src/config/edfl_aligned_validator.py`, `src/config/hallbayes_validator.py`,
`src/config/bedrock_hallbayes_adapter.py`).

Shallow embedding conventions:
* Python floats are modelled as `ℚ` (the literals `0.2`, `0.05`, `12.0`
  become `1/5`, `1/20`, `12`).
* The external `hallbayes.hallucination_toolkit` library (not in this
  repository) is the source of `delta_bar_from_probs`, `bits_to_trust`,
  `roh_upper_bound`, `_choices_to_decisions`, and the skeleton makers.
  These are kept abstract as fields of a `Toolkit` parameter, except where
  the spec fixes their meaning (`isr`, `q_bar`, `q_lo`), which are then
  modelled from the spec's words.
* The LLM backend's `multi_choice(msgs, n, ...)` is a function
  `String → Nat → Except String (List String)`: given the prompt text and
  the sample count it either returns completion texts or raises
  (models an unreachable backend).  The `decision_messages_*` formatting
  of the prompt into a message list is absorbed into the backend function.
* Raised Python exceptions are `Except.error` values carrying the message.
-/

set_option autoImplicit false

namespace EDFL

/-- Decision label produced by the hallbayes classifier for one completion:
`"answer"` or `"refuse"`. -/
inductive Decision where
  | answer
  | refuse
  deriving DecidableEq, Repr

def Decision.label : Decision → String
  | .answer => "answer"
  | .refuse => "refuse"

/-- `sum(1 for d in ds if d == "answer") / max(1, len(ds))` — the answer
rate of a list of classified decisions, as computed in
`_estimate_signals_aligned` (lines 142 and 154). -/
def answerRate (ds : List Decision) : ℚ :=
  ((ds.countP (fun d => d = Decision.answer) : ℚ)) / ((max 1 ds.length : ℕ) : ℚ)

/-- The external hallbayes functions used by the validator, kept abstract:
the library is not part of this repository (it is imported from a
hard-coded sibling path), so the validator is verified for every possible
behaviour of these black boxes.
`deltaBarFromProbs P S B clipMode` is `delta_bar_from_probs`;
`bitsToTrust q h` is `bits_to_trust`; `rohUpperBound d q` is
`roh_upper_bound`; `skeletonsEE prompt m seeds` is
`make_skeletons_evidence_erase` (the fixed `fields_to_erase=["Evidence"]`
argument is absorbed); `skeletonsCB prompt m seeds` is
`make_skeletons_closed_book`. -/
structure Toolkit where
  deltaBarFromProbs : ℚ → List ℚ → ℚ → String → ℚ
  bitsToTrust : ℚ → ℚ → ℚ
  rohUpperBound : ℚ → ℚ → ℚ
  skeletonsEE : String → Nat → List Nat → List String
  skeletonsCB : String → Nat → List Nat → List String

/-- Modelled from the spec: `sufficiency_ratio (ISR) = Δ̄ / B2T` (§4.4);
the source's `_isr` lives in the external hallbayes toolkit. -/
def isr (dbar b2t : ℚ) : ℚ := dbar / b2t

/-- Modelled from the spec: `q_avg = mean(q_list)` (§4.4); the source's
`q_bar` lives in the external hallbayes toolkit. -/
def q_bar (l : List ℚ) : ℚ := l.sum / (l.length : ℚ)

/-- Modelled from the spec: `q_lo = min(q_list)` (§4.4); the source's
`q_lo` lives in the external hallbayes toolkit.  Mirrors Python's
`min`, which is only well-defined on a non-empty list (junk value `0`
for `[]`; the code raises before ever taking `min` of an empty list). -/
def q_lo_fn : List ℚ → ℚ
  | [] => 0
  | h :: t => t.foldl min h

/-- The classified samples and reduced statistics returned by
`_estimate_signals_aligned`. -/
structure Signals where
  P_answer : ℚ
  S_list : List ℚ
  q_list : List ℚ
  y_label : Decision
  deriving DecidableEq, Repr

/-- The skeleton loop of `_estimate_signals_aligned` (lines 148-158):
for each skeleton, call `multi_choice`, classify, compute
`qk = answerRate`, set `sk_answer = qk`, and append to both accumulators
(`S_list_answer`, `q_list`).  The `Nat` threads the running count of
`multi_choice` invocations; a backend failure aborts the loop with the
raised message, as in Python. -/
def skelLoop (backend : String → Nat → Except String (List String))
    (classify : String → Decision) (n_samples : Nat) :
    List String → List ℚ × List ℚ → Nat →
    Except String (List ℚ × List ℚ) × Nat
  | [], acc, c => (.ok acc, c)
  | sk :: rest, acc, c =>
    match backend sk n_samples with
    | .error e => (.error e, c + 1)
    | .ok choices_k =>
      let dec_k := choices_k.map classify
      let qk := answerRate dec_k
      let sk_answer := qk
      skelLoop backend classify n_samples rest
        (acc.1 ++ [sk_answer], acc.2 ++ [qk]) (c + 1)

/-- `AlignedEDFLValidator._estimate_signals_aligned` (lines 115-165).
Returns the signals (or the raised exception's message) together with the
number of `multi_choice` backend invocations made.  The
`closed_book` flag only selects which `decision_messages_*` wrapper is
applied before the backend call; that formatting is absorbed into the
backend function, so the flag does not appear here.  The final
`logger.info` line divides `sum(q_list)` by `len(q_list)`, so an empty
skeleton list raises `ZeroDivisionError` at that point. -/
def estimateSignalsAligned (backend : String → Nat → Except String (List String))
    (classify : String → Decision) (n_samples : Nat)
    (prompt : String) (skeletons : List String) :
    Except String Signals × Nat :=
  match backend prompt n_samples with
  | .error e => (.error e, 1)
  | .ok choices =>
    let post_decisions := choices.map classify
    let y_label := post_decisions.headD .refuse
    let P_answer := answerRate post_decisions
    match skelLoop backend classify n_samples skeletons ([], []) 1 with
    | (.error e, c) => (.error e, c)
    | (.ok acc, c) =>
      if acc.2.length = 0 then (.error "division by zero", c)
      else (.ok ⟨P_answer, acc.1, acc.2, y_label⟩, c)

/-- All intermediate values of one aggregation pass (the shared metric
block of `validate_evidence_based` lines 244-297 and
`validate_closed_book` lines 352-362). -/
structure FullResult where
  P_answer : ℚ
  S_list : List ℚ
  q_list : List ℚ
  y_label : Decision
  q_avg : ℚ
  q_cons : ℚ
  dbar : ℚ
  b2t : ℚ
  isr_val : ℚ
  roh : ℚ
  will_answer : Bool
  deriving DecidableEq, Repr

/-- The estimation-plus-aggregation body shared verbatim by
`validate_evidence_based` (lines 235-263) and `validate_closed_book`
(lines 343-362): estimate signals, take `q_avg = q_bar(q_list)`,
`q_cons = max(q_lo(q_list), 1/(n_samples+2))` (the floor),
`dbar = _delta_bar_from_probs(P_answer, S_list_answer, B=12.0,
clip_mode="one-sided")`, `b2t = _bits_to_trust(q_cons, h_star)`,
`isr_val = _isr(dbar, b2t)`, `roh = _roh_upper_bound(dbar, q_avg)`, and
`will_answer = (isr_val >= 1.0) and (dbar >= b2t + 0.2)`. -/
def runAligned (tk : Toolkit) (backend : String → Nat → Except String (List String))
    (classify : String → Decision) (prompt : String) (skeletons : List String)
    (n_samples : Nat) (h_star : ℚ) : Except String FullResult × Nat :=
  match estimateSignalsAligned backend classify n_samples prompt skeletons with
  | (.error e, c) => (.error e, c)
  | (.ok sig, c) =>
    let q_avg := q_bar sig.q_list
    let q_cons := max (q_lo_fn sig.q_list) (1 / ((n_samples : ℚ) + 2))
    let dbar := tk.deltaBarFromProbs sig.P_answer sig.S_list 12 "one-sided"
    let b2t := tk.bitsToTrust q_cons h_star
    let isr_val := isr dbar b2t
    let roh := tk.rohUpperBound dbar q_avg
    let will_answer := decide (1 ≤ isr_val) && decide (b2t + 1/5 ≤ dbar)
    (.ok ⟨sig.P_answer, sig.S_list, sig.q_list, sig.y_label,
          q_avg, q_cons, dbar, b2t, isr_val, roh, will_answer⟩, c)

/-- The constructor-determined state of an `AlignedEDFLValidator`:
whether `self.enable_validation` is `True` and whether `self.planner`
is not `None`.  The constructor (lines 62-99) couples them: both true
exactly when validation was requested and initialization succeeded. -/
structure ValidatorState where
  enable_validation : Bool
  plannerSome : Bool
  deriving DecidableEq, Repr

/-- `AlignedEDFLValidator.__init__` (lines 62-99): with
`enable_validation=False` the planner stays `None`; otherwise the body
runs under `try` and any exception (`initOk = false`, e.g. hallbayes not
importable) disables validation and leaves the planner `None`. -/
def initAligned (enable : Bool) (initOk : Bool) : ValidatorState :=
  if !enable then ⟨false, false⟩
  else if initOk then ⟨true, true⟩
  else ⟨false, false⟩

/-- One validator return value `(should_use, risk_bound, rationale)`,
instrumented with `backend_calls`, the number of `multi_choice`
invocations the call performed (not part of the Python return value;
used to state the "no backend calls" claims). -/
structure VOut where
  accept : Bool
  risk_bound : ℚ
  rationale : String
  backend_calls : Nat
  deriving DecidableEq, Repr

/-- The evaluation prompt built by `validate_evidence_based`
(lines 192-207). -/
def evidencePrompt (task_description evidence llm_output : String) : String :=
  "VERIFICATION TASK: " ++ task_description ++
  "\n\nSOURCE EVIDENCE (from web search results):\n" ++ evidence ++
  "\n\nEXTRACTED CLAIMS TO VERIFY:\n" ++ llm_output ++
  "\n\nINSTRUCTIONS:\n1. Check if EACH extracted claim is explicitly stated in the source evidence\n2. Verify prices, names, dates, and URLs match the source\n3. Answer \"yes\" ONLY if ALL claims are supported by the evidence above\n4. Answer \"no\" if ANY claim is unsupported, hallucinated, or contradicts evidence\n\nQUESTION: Are ALL extracted claims fully supported by the source evidence?\nAnswer: yes or no"

/-- The evaluation prompt built by `validate_closed_book`
(lines 317-329). -/
def closedBookPrompt (question llm_output : String) : String :=
  question ++ "\n\nProposed answer:\n" ++ llm_output ++
  "\n\nINSTRUCTIONS:\n1. Check if the answer is internally consistent\n2. Verify dates, locations, numbers are logically coherent\n3. Answer \"yes\" if consistent and plausible\n4. Answer \"no\" if contradictions or implausible claims\n\nQUESTION: Is this answer internally consistent and coherent?\nAnswer: yes or no"

/-- `seeds = list(range(m))` (lines 229 and 340). -/
def skeletonSeeds (m : Nat) : List Nat := List.range m

/-- The rationale string of `validate_evidence_based` (lines 266-270).
Python renders the numbers with fixed-decimal formatting; the embedding
keeps the exact rational values (deterministic either way). -/
def rationaleEvidence (r : FullResult) : String :=
  "Δ̄=" ++ toString r.dbar ++ " nats, B2T=" ++ toString r.b2t ++
  ", ISR=" ++ toString r.isr_val ++ ", P(answer)=" ++ toString r.P_answer ++
  ", q_lo=" ++ toString r.q_cons ++ ", RoH=" ++ toString r.roh ++
  "; y_label='" ++ r.y_label.label ++ "' (Δ̄ computed for 'answer' event)"

/-- The rationale string of `validate_closed_book` (lines 364-367). -/
def rationaleClosedBook (r : FullResult) : String :=
  "Δ̄=" ++ toString r.dbar ++ ", B2T=" ++ toString r.b2t ++
  ", ISR=" ++ toString r.isr_val ++ ", P(answer)=" ++ toString r.P_answer ++
  ", q_lo=" ++ toString r.q_cons ++ ", RoH=" ++ toString r.roh

/-- `AlignedEDFLValidator.validate_evidence_based` (lines 167-303):
disabled guard, prompt construction, skeleton construction with seeds
`list(range(m))`, aligned estimation + aggregation under `try`, with the
`except` clause returning `(True, 1.0, f"validation_error: {e}")`. -/
def validateEvidenceBased (tk : Toolkit)
    (backend : String → Nat → Except String (List String))
    (classify : String → Decision) (st : ValidatorState) (h_star : ℚ)
    (task_description evidence llm_output : String)
    (n_samples m : Nat) : VOut :=
  if !st.enable_validation || !st.plannerSome then
    ⟨true, 0, "validation_disabled", 0⟩
  else
    let prompt := evidencePrompt task_description evidence llm_output
    let skeletons := tk.skeletonsEE prompt m (skeletonSeeds m)
    match runAligned tk backend classify prompt skeletons n_samples h_star with
    | (.ok r, c) => ⟨r.will_answer, r.roh, rationaleEvidence r, c⟩
    | (.error e, c) => ⟨true, 1, "validation_error: " ++ e, c⟩

/-- `AlignedEDFLValidator.validate_closed_book` (lines 305-375). -/
def validateClosedBook (tk : Toolkit)
    (backend : String → Nat → Except String (List String))
    (classify : String → Decision) (st : ValidatorState) (h_star : ℚ)
    (question llm_output : String) (n_samples m : Nat) : VOut :=
  if !st.enable_validation || !st.plannerSome then
    ⟨true, 0, "validation_disabled", 0⟩
  else
    let prompt := closedBookPrompt question llm_output
    let skeletons := tk.skeletonsCB prompt m (skeletonSeeds m)
    match runAligned tk backend classify prompt skeletons n_samples h_star with
    | (.ok r, c) => ⟨r.will_answer, r.roh, rationaleClosedBook r, c⟩
    | (.error e, c) => ⟨true, 1, "validation_error: " ++ e, c⟩

/-- One `validate_extraction_batch` return value
`(should_use, risk_bound, rationale, valid_count)`, instrumented with
the backend call count as in `VOut`. -/
structure BatchOut where
  accept : Bool
  risk_bound : ℚ
  rationale : String
  valid_count : Nat
  backend_calls : Nat
  deriving DecidableEq, Repr

/-- `AlignedEDFLValidator.validate_extraction_batch` (lines 377-410).
`ser` stands for the serialization block (lines 390-397):
`json.dumps` of the items (or `str(items)` on serialization failure) —
an external-library computation, abstracted as a function of the items.
The delegate call passes no `n_samples`/`m`, so the defaults 3 and 4
apply. -/
def validateExtractionBatch {α : Type} (tk : Toolkit)
    (backend : String → Nat → Except String (List String))
    (classify : String → Decision) (st : ValidatorState) (h_star : ℚ)
    (ser : List α → String)
    (task_description evidence : String) (extracted_items : List α)
    (item_type : String) : BatchOut :=
  if extracted_items.isEmpty then
    ⟨true, 0, "no_items_to_validate", 0, 0⟩
  else
    let items_json := ser extracted_items
    let out := validateEvidenceBased tk backend classify st h_star
      (task_description ++ "\n\nExtracted " ++ toString extracted_items.length
        ++ " " ++ item_type ++ ".")
      evidence items_json 3 4
    ⟨out.accept, out.risk_bound, out.rationale,
      if out.accept then extracted_items.length else 0, out.backend_calls⟩

/-- The constructor-determined state of an `EDFLValidator`
(`src/config/hallbayes_validator.py` lines 54-104): whether
`self.enable_validation` is `True`, whether `self._aligned_validator`
is not `None`, and whether `self.planner` is not `None`. -/
structure EDFLState where
  enable_validation : Bool
  alignedSome : Bool
  plannerSome : Bool
  deriving DecidableEq, Repr

/-- `EDFLValidator.__init__` with the default `use_aligned=True`:
disabled → everything `None`; otherwise under `try`, success builds the
aligned delegate (planner stays `None`); an exception (`initOk = false`)
disables validation and leaves both `None` (lines 99-104). -/
def initEDFL (enable : Bool) (initOk : Bool) : EDFLState :=
  if !enable then ⟨false, false, false⟩
  else if initOk then ⟨true, true, false⟩
  else ⟨false, false, false⟩

/-- `EDFLValidator.validate_evidence_based` (lines 131-244): disabled
guard, delegation to the aligned validator when present, second disabled
guard when the planner is also `None`, else the standard hallbayes
planner path (external `planner.run`, abstracted as the `standard`
argument). -/
def edflValidateEvidenceBased (st : EDFLState) (alignedOut standard : VOut) : VOut :=
  if !st.enable_validation then ⟨true, 0, "validation_disabled", 0⟩
  else if st.alignedSome then alignedOut
  else if !st.plannerSome then ⟨true, 0, "validation_disabled", 0⟩
  else standard

/-- `EDFLValidator.validate_closed_book` (lines 246-330): same guard
structure as `edflValidateEvidenceBased`. -/
def edflValidateClosedBook (st : EDFLState) (alignedOut standard : VOut) : VOut :=
  if !st.enable_validation then ⟨true, 0, "validation_disabled", 0⟩
  else if st.alignedSome then alignedOut
  else if !st.plannerSome then ⟨true, 0, "validation_disabled", 0⟩
  else standard

/-- `EDFLValidator.validate_extraction_batch` (lines 332-389): the empty
guard comes first, then delegation (aligned when present, else the
serialize-and-delegate path abstracted as `fallback`). -/
def edflValidateExtractionBatch {α : Type} (st : EDFLState)
    (extracted_items : List α) (alignedOut fallback : BatchOut) : BatchOut :=
  if extracted_items.isEmpty then
    ⟨true, 0, "no_items_to_validate", 0, 0⟩
  else if st.alignedSome then alignedOut
  else fallback

/-- `BedrockHallbayesAdapter.multi_choice`
(`src/config/bedrock_hallbayes_adapter.py` lines 103-126): a loop of `n`
`chat_create` attempts over the same messages; each attempt's underlying
`BedrockProxyLLM._call` outcome is modelled by `call i` (the backend is
stateful, so outcomes are indexed by the attempt number).  A raised
exception in attempt `i` appends the fallback choice with content
`"refuse"`; a success appends the response text. -/
def multi_choice (call : Nat → Except String String) (n : Nat) : List String :=
  (List.range n).foldl
    (fun choices i =>
      choices ++ [match call i with
        | .ok s => s
        | .error _ => "refuse"])
    []

/-! ### Concrete fixtures for witnesses and counterexamples -/

/-- A concrete toolkit: `deltaBarFromProbs` probes its `S_list` argument
by returning its head (so the value fed to the information gain is
visible as `dbar`); the other black boxes are constant; both skeleton
makers produce a single skeleton. -/
def cxTk : Toolkit :=
  ⟨fun _ S _ _ => S.headD 9, fun _ _ => 0, fun _ _ => 0,
   fun _ _ _ => ["sk"], fun _ _ _ => ["sk"]⟩

/-- A backend whose every sample completes with `"no"`. -/
def cxBackendRefuse : String → Nat → Except String (List String) :=
  fun _ _ => .ok ["no"]

/-- An entirely unreachable backend: every call raises. -/
def cxBackendDown : String → Nat → Except String (List String) :=
  fun _ _ => .error "unreachable"

/-- A classifier that labels every completion DECLINE. -/
def cxClassify : String → Decision := fun _ => .refuse

/-- An enabled validator state (constructor succeeded). -/
def cxSt : ValidatorState := ⟨true, true⟩

/-- The aggregation result of `cxTk`/`cxBackendRefuse`/`cxClassify` with
`n_samples = 3` and one skeleton: every rate is `0`, the floored minimum
is `1/5`, and the decision is DECLINE. -/
def cxFull : FullResult := ⟨0, [0], [0], .refuse, 0, 1/5, 0, 0, 0, 0, false⟩

/-- Like `cxFull` but over two skeletons. -/
def cxFull2 : FullResult := ⟨0, [0, 0], [0, 0], .refuse, 0, 1/5, 0, 0, 0, 0, false⟩

/-- The signals of `cxBackendRefuse`/`cxClassify` over one skeleton. -/
def cxSig : Signals := ⟨0, [0], [0], .refuse⟩

/-- A per-attempt outcome function for the Bedrock adapter: the first
attempt succeeds with `"yes"`, later attempts raise. -/
def cxCall : Nat → Except String String :=
  fun i => if i = 0 then .ok "yes" else .error "backend down"

/-! ### Helper lemmas -/

theorem answerRate_nonneg (ds : List Decision) : 0 ≤ answerRate ds := by
  unfold answerRate
  positivity

theorem answerRate_le_one (ds : List Decision) : answerRate ds ≤ 1 := by
  unfold answerRate
  rw [div_le_one (by positivity)]
  exact_mod_cast Nat.le_trans (List.countP_le_length _) (Nat.le_max_right 1 ds.length)

theorem skelLoop_ok (backend : String → Nat → Except String (List String))
    (classify : String → Decision) (n : Nat) :
    ∀ (sks : List String) (acc : List ℚ × List ℚ) (c : Nat)
      (res : List ℚ × List ℚ) (cout : Nat),
      skelLoop backend classify n sks acc c = (.ok res, cout) →
      (acc.1 = acc.2 → res.1 = res.2) ∧
      ((∀ x ∈ acc.2, 0 ≤ x ∧ x ≤ 1) → ∀ x ∈ res.2, 0 ≤ x ∧ x ≤ 1) ∧
      res.2 = acc.2 ++ sks.map
        (fun sk => answerRate (((backend sk n).toOption.getD []).map classify)) := by
  intro sks
  induction sks with
  | nil =>
    intro acc c res cout h
    simp only [skelLoop] at h
    obtain ⟨h1, h2⟩ := Prod.mk.injEq .. ▸ h
    cases h1
    refine ⟨fun hq => by simp_all, fun hb => by simp_all, by simp⟩
  | cons sk rest ih =>
    intro acc c res cout h
    simp only [skelLoop] at h
    cases hbk : backend sk n with
    | error e => rw [hbk] at h; exact absurd h (by simp)
    | ok choices_k =>
      rw [hbk] at h
      obtain ⟨he, hb, hch⟩ := ih _ _ _ _ h
      refine ⟨fun hq => he (by simp [hq]), fun hb0 => hb ?_, ?_⟩
      · intro x hx
        rcases List.mem_append.mp hx with hx | hx
        · exact hb0 x hx
        · rcases List.mem_singleton.mp hx with rfl
          exact ⟨answerRate_nonneg _, answerRate_le_one _⟩
      · rw [hch]
        simp [hbk, Except.toOption]

theorem estimateSignalsAligned_ok
    (backend : String → Nat → Except String (List String))
    (classify : String → Decision) (n : Nat) (prompt : String)
    (sks : List String) (sig : Signals) (c : Nat)
    (h : estimateSignalsAligned backend classify n prompt sks = (.ok sig, c)) :
    sig.S_list = sig.q_list ∧ sig.q_list ≠ [] ∧
    (∀ x ∈ sig.q_list, 0 ≤ x ∧ x ≤ 1) ∧
    sig.q_list = sks.map
      (fun sk => answerRate (((backend sk n).toOption.getD []).map classify)) ∧
    sig.P_answer = answerRate (((backend prompt n).toOption.getD []).map classify) := by
  cases hbp : backend prompt n with
  | error e =>
    simp only [estimateSignalsAligned, hbp] at h
    exact absurd h (by simp)
  | ok choices =>
    cases hsl : skelLoop backend classify n sks ([], []) 1 with
    | mk r1 c1 =>
      cases r1 with
      | error e =>
        simp only [estimateSignalsAligned, hbp, hsl] at h
        exact absurd h (by simp)
      | ok acc =>
        simp only [estimateSignalsAligned, hbp, hsl] at h
        by_cases hlen : acc.2.length = 0
        · rw [if_pos hlen] at h; exact absurd h (by simp)
        · rw [if_neg hlen] at h
          obtain ⟨hsig, hc⟩ := Prod.mk.injEq .. ▸ h
          obtain ⟨heq, hbd, hch⟩ := skelLoop_ok backend classify n sks ([], []) 1 acc c1 hsl
          cases hsig
          refine ⟨heq rfl, fun hnil => hlen ?_, hbd (by simp),
            by simpa using hch, by simp [hbp, Except.toOption]⟩
          have h2 : acc.2 = [] := hnil
          simp [h2]

theorem runAligned_ok (tk : Toolkit)
    (backend : String → Nat → Except String (List String))
    (classify : String → Decision) (prompt : String) (sks : List String)
    (n : Nat) (h_star : ℚ) (r : FullResult) (c : Nat)
    (h : runAligned tk backend classify prompt sks n h_star = (.ok r, c)) :
    r.S_list = r.q_list ∧ r.q_list ≠ [] ∧
    (∀ x ∈ r.q_list, 0 ≤ x ∧ x ≤ 1) ∧
    r.q_avg = q_bar r.q_list ∧
    r.q_cons = max (q_lo_fn r.q_list) (1 / ((n : ℚ) + 2)) ∧
    r.dbar = tk.deltaBarFromProbs r.P_answer r.S_list 12 "one-sided" ∧
    r.isr_val = isr r.dbar r.b2t ∧
    r.will_answer = (decide (1 ≤ r.isr_val) && decide (r.b2t + 1/5 ≤ r.dbar)) := by
  simp only [runAligned] at h
  cases hest : estimateSignalsAligned backend classify n prompt sks with
  | mk res c1 =>
    rw [hest] at h
    cases res with
    | error e => exact absurd h (by simp)
    | ok sig =>
      obtain ⟨hr, hc⟩ := Prod.mk.injEq .. ▸ h
      obtain ⟨hS, hne, hbd, _, _⟩ :=
        estimateSignalsAligned_ok backend classify n prompt sks sig c1 hest
      cases hr
      exact ⟨hS, hne, hbd, rfl, rfl, rfl, rfl, rfl⟩

theorem foldl_min_le (t : List ℚ) : ∀ (a : ℚ), ∀ x ∈ a :: t, t.foldl min a ≤ x := by
  induction t with
  | nil =>
    intro a x hx
    rw [List.mem_singleton.mp hx]
    simp
  | cons b t ih =>
    intro a x hx
    have hmin : t.foldl min (min a b) ≤ min a b :=
      ih (min a b) (min a b) (List.mem_cons_self _ _)
    rcases List.mem_cons.mp hx with h1 | hx2
    · rw [h1, List.foldl_cons]
      exact le_trans hmin (min_le_left a b)
    · rcases List.mem_cons.mp hx2 with h2 | h3
      · rw [h2, List.foldl_cons]
        exact le_trans hmin (min_le_right a b)
      · rw [List.foldl_cons]
        exact ih (min a b) x (List.mem_cons_of_mem _ h3)

theorem foldl_min_mem (t : List ℚ) : ∀ (a : ℚ), t.foldl min a ∈ a :: t := by
  induction t with
  | nil => intro a; simp
  | cons b t ih =>
    intro a
    rcases List.mem_cons.mp (ih (min a b)) with he | he
    · rcases min_choice a b with hm | hm <;> rw [List.foldl_cons, he, hm] <;> simp
    · exact List.mem_cons_of_mem _ (List.mem_cons_of_mem _ he)

theorem q_lo_fn_le (l : List ℚ) (hl : l ≠ []) : ∀ x ∈ l, q_lo_fn l ≤ x := by
  cases l with
  | nil => exact absurd rfl hl
  | cons a t => exact foldl_min_le t a

theorem q_lo_fn_mem (l : List ℚ) (hl : l ≠ []) : q_lo_fn l ∈ l := by
  cases l with
  | nil => exact absurd rfl hl
  | cons a t => exact foldl_min_mem t a

theorem mul_len_le_sum (l : List ℚ) (a : ℚ) (ha : ∀ x ∈ l, a ≤ x) :
    a * (l.length : ℚ) ≤ l.sum := by
  induction l with
  | nil => simp
  | cons b t ih =>
    have hb := ha b (by simp)
    have ht := ih (fun x hx => ha x (List.mem_cons_of_mem _ hx))
    rw [List.sum_cons, List.length_cons]
    push_cast
    linarith [ht, hb, (by ring : a * ((t.length : ℚ) + 1) = a * (t.length : ℚ) + a)]

theorem list_sum_le_len (l : List ℚ) (h1 : ∀ x ∈ l, x ≤ 1) :
    l.sum ≤ (l.length : ℚ) := by
  induction l with
  | nil => simp
  | cons b t ih =>
    have hb := h1 b (by simp)
    have ht := ih (fun x hx => h1 x (List.mem_cons_of_mem _ hx))
    rw [List.sum_cons, List.length_cons]
    push_cast
    linarith [hb, ht]

theorem q_bar_nonneg (l : List ℚ) (h0 : ∀ x ∈ l, 0 ≤ x) : 0 ≤ q_bar l := by
  unfold q_bar
  exact div_nonneg (List.sum_nonneg h0) (by positivity)

theorem q_bar_le_one (l : List ℚ) (h1 : ∀ x ∈ l, x ≤ 1) : q_bar l ≤ 1 := by
  unfold q_bar
  rcases List.eq_nil_or_concat l with rfl | ⟨t, b, rfl⟩
  · simp
  · rw [div_le_one (by simp; positivity)]
    exact list_sum_le_len _ h1

theorem q_lo_fn_le_q_bar (l : List ℚ) (hl : l ≠ []) : q_lo_fn l ≤ q_bar l := by
  unfold q_bar
  have hlen : (0 : ℚ) < (l.length : ℚ) := by
    have := List.length_pos.mpr hl
    exact_mod_cast this
  rw [le_div_iff₀ hlen]
  exact mul_len_le_sum l _ (q_lo_fn_le l hl)

/-! ### Claim theorems -/

/-- Claim C1: for every validation call that reaches aggregation
(`validate_evidence_based` or `validate_closed_book`, validation enabled,
no internal error), the returned accept decision is `true` iff the
sufficiency value `ISR = Δ̄ / B2T` is at least `1` and
`Δ̄ ≥ B2T + 0.2` (the decision margin); otherwise the decision is
DECLINE (`accept = false`). -/
theorem decision_iff_isr_and_margin (tk : Toolkit)
    (backend : String → Nat → Except String (List String))
    (classify : String → Decision) (st : ValidatorState) (h_star : ℚ)
    (task evidence out question cbout : String) (nE mE nC mC : Nat)
    (rE rC : FullResult) (cE cC : Nat)
    (hen : st.enable_validation = true) (hpl : st.plannerSome = true)
    (hE : runAligned tk backend classify (evidencePrompt task evidence out)
      (tk.skeletonsEE (evidencePrompt task evidence out) mE (skeletonSeeds mE))
      nE h_star = (.ok rE, cE))
    (hC : runAligned tk backend classify (closedBookPrompt question cbout)
      (tk.skeletonsCB (closedBookPrompt question cbout) mC (skeletonSeeds mC))
      nC h_star = (.ok rC, cC)) :
    ((validateEvidenceBased tk backend classify st h_star task evidence out nE mE).accept
        = true ↔ (1 ≤ isr rE.dbar rE.b2t ∧ rE.b2t + 1/5 ≤ rE.dbar)) ∧
    ((validateClosedBook tk backend classify st h_star question cbout nC mC).accept
        = true ↔ (1 ≤ isr rC.dbar rC.b2t ∧ rC.b2t + 1/5 ≤ rC.dbar)) := by
  obtain ⟨-, -, -, -, -, -, hiE, hwE⟩ := runAligned_ok _ _ _ _ _ _ _ _ _ hE
  obtain ⟨-, -, -, -, -, -, hiC, hwC⟩ := runAligned_ok _ _ _ _ _ _ _ _ _ hC
  constructor
  · simp only [validateEvidenceBased, hen, hpl, hE]
    rw [hwE, hiE]
    simp [Bool.and_eq_true, decide_eq_true_eq]
  · simp only [validateClosedBook, hen, hpl, hC]
    rw [hwC, hiC]
    simp [Bool.and_eq_true, decide_eq_true_eq]

/-- Witness for Claim C1's theorem, at the all-DECLINE fixture (decision
DECLINE because `ISR = 0 < 1`). -/
theorem decision_iff_isr_and_margin_witness :
    ((validateEvidenceBased cxTk cxBackendRefuse cxClassify cxSt (1/20)
        "t" "e" "o" 3 4).accept
      = true ↔ (1 ≤ isr cxFull.dbar cxFull.b2t ∧ cxFull.b2t + 1/5 ≤ cxFull.dbar)) ∧
    ((validateClosedBook cxTk cxBackendRefuse cxClassify cxSt (1/20)
        "q" "a" 3 4).accept
      = true ↔ (1 ≤ isr cxFull.dbar cxFull.b2t ∧ cxFull.b2t + 1/5 ≤ cxFull.dbar)) :=
  decision_iff_isr_and_margin cxTk cxBackendRefuse cxClassify cxSt (1/20)
    "t" "e" "o" "q" "a" 3 4 3 4 cxFull cxFull 2 2 rfl rfl
    (by simp [runAligned, estimateSignalsAligned, skelLoop, answerRate, q_bar, q_lo_fn,
      isr, cxTk, cxBackendRefuse, cxClassify, cxFull, Except.toOption, List.countP,
      List.countP.go]; norm_num)
    (by simp [runAligned, estimateSignalsAligned, skelLoop, answerRate, q_bar, q_lo_fn,
      isr, cxTk, cxBackendRefuse, cxClassify, cxFull, Except.toOption, List.countP,
      List.countP.go]; norm_num)

/-- Claim C2: in the aligned signal estimation, `S_list` and `q_list`
are element-wise identical, and both they and `P_answer` measure the
same event — the fraction of sampled completions classified as
`answer` (`answerRate` of the classified completions of the skeleton,
resp. of the full prompt). -/
theorem aligned_S_list_eq_q_list
    (backend : String → Nat → Except String (List String))
    (classify : String → Decision) (n : Nat) (prompt : String)
    (sks : List String) (sig : Signals) (c : Nat)
    (h : estimateSignalsAligned backend classify n prompt sks = (.ok sig, c)) :
    sig.S_list = sig.q_list ∧
    sig.q_list = sks.map
      (fun sk => answerRate (((backend sk n).toOption.getD []).map classify)) ∧
    sig.P_answer = answerRate (((backend prompt n).toOption.getD []).map classify) := by
  obtain ⟨h1, -, -, h4, h5⟩ := estimateSignalsAligned_ok backend classify n prompt sks sig c h
  exact ⟨h1, h4, h5⟩

/-- Witness for Claim C2's theorem at a concrete estimation call. -/
theorem aligned_S_list_eq_q_list_witness :
    cxSig.S_list = cxSig.q_list ∧
    cxSig.q_list = ["sk"].map
      (fun sk => answerRate (((cxBackendRefuse sk 3).toOption.getD []).map cxClassify)) ∧
    cxSig.P_answer =
      answerRate (((cxBackendRefuse "p" 3).toOption.getD []).map cxClassify) :=
  aligned_S_list_eq_q_list cxBackendRefuse cxClassify 3 "p" ["sk"] cxSig 2
    (by simp [estimateSignalsAligned, skelLoop, answerRate, cxBackendRefuse, cxClassify,
      cxSig, Except.toOption, List.countP, List.countP.go])

/-- Claim C5: with validation enabled, any internal error inside the
body of `validate_evidence_based` or `validate_closed_book` (backend
unreachable, division by zero, ...) is not propagated: the entry point
returns the triple `(True, 1.0, "validation_error: " ++ e)` (the return
type itself guarantees the caller always receives a
`(bool, float, str)`-shaped value). -/
theorem validation_error_fail_open (tk : Toolkit)
    (backend : String → Nat → Except String (List String))
    (classify : String → Decision) (st : ValidatorState) (h_star : ℚ)
    (task evidence out question cbout : String) (nE mE nC mC : Nat)
    (e1 e2 : String) (c1 c2 : Nat)
    (hen : st.enable_validation = true) (hpl : st.plannerSome = true)
    (hE : runAligned tk backend classify (evidencePrompt task evidence out)
      (tk.skeletonsEE (evidencePrompt task evidence out) mE (skeletonSeeds mE))
      nE h_star = (.error e1, c1))
    (hC : runAligned tk backend classify (closedBookPrompt question cbout)
      (tk.skeletonsCB (closedBookPrompt question cbout) mC (skeletonSeeds mC))
      nC h_star = (.error e2, c2)) :
    validateEvidenceBased tk backend classify st h_star task evidence out nE mE
      = ⟨true, 1, "validation_error: " ++ e1, c1⟩ ∧
    validateClosedBook tk backend classify st h_star question cbout nC mC
      = ⟨true, 1, "validation_error: " ++ e2, c2⟩ := by
  constructor
  · simp [validateEvidenceBased, hen, hpl, hE]
  · simp [validateClosedBook, hen, hpl, hC]

/-- Witness for Claim C5's theorem: an unreachable backend raises on the
very first sampling call and both entry points return the fail-open
triple with worst-case risk bound `1`. -/
theorem validation_error_fail_open_witness :
    validateEvidenceBased cxTk cxBackendDown cxClassify cxSt (1/20) "t" "e" "o" 3 4
      = ⟨true, 1, "validation_error: " ++ "unreachable", 1⟩ ∧
    validateClosedBook cxTk cxBackendDown cxClassify cxSt (1/20) "q" "a" 3 4
      = ⟨true, 1, "validation_error: " ++ "unreachable", 1⟩ :=
  validation_error_fail_open cxTk cxBackendDown cxClassify cxSt (1/20)
    "t" "e" "o" "q" "a" 3 4 3 4 "unreachable" "unreachable" 1 1 rfl rfl
    (by simp [runAligned, estimateSignalsAligned, cxBackendDown])
    (by simp [runAligned, estimateSignalsAligned, cxBackendDown])

/-- Claim C6: `validate_evidence_based` is deterministic as a two-run
property: the skeleton seeds are exactly `[0, 1, ..., m-1]`
(`list(range(m))`), and two runs with the same arguments, the same
`h_star` and the same fixed backend function return the identical
result. -/
theorem evidence_validation_reproducible (tk : Toolkit)
    (backend : String → Nat → Except String (List String))
    (classify : String → Decision) (st : ValidatorState) (h_star : ℚ)
    (task evidence out : String) (n m : Nat) (r1 r2 : VOut)
    (h1 : r1 = validateEvidenceBased tk backend classify st h_star task evidence out n m)
    (h2 : r2 = validateEvidenceBased tk backend classify st h_star task evidence out n m) :
    skeletonSeeds m = List.range m ∧ r1 = r2 :=
  ⟨rfl, h1.trans h2.symm⟩

/-- Witness for Claim C6's theorem: two concrete runs. -/
theorem evidence_validation_reproducible_witness :
    skeletonSeeds 4 = List.range 4 ∧
    validateEvidenceBased cxTk cxBackendRefuse cxClassify cxSt (1/20) "t" "e" "o" 3 4
      = validateEvidenceBased cxTk cxBackendRefuse cxClassify cxSt (1/20) "t" "e" "o" 3 4 :=
  evidence_validation_reproducible cxTk cxBackendRefuse cxClassify cxSt (1/20)
    "t" "e" "o" 3 4 _ _ rfl rfl

/-- Claim C3 counterexample: with `n_samples = 3` (floor `1/5`) and a
backend that declines on every skeleton sample, the per-skeleton rate
list is `[0]` and is fed RAW into the aggregation: `S_list = [0]`
reaches the information-gain (the probing `deltaBarFromProbs` of `cxTk`
returns the head of the list it was fed, and indeed `dbar = 0`), and
`q_avg = 0` — both below the floor `1/(3+2) = 1/5`.  Only the minimum
is floored (`q_cons = 1/5`).  This refutes the claim that the floor is
applied to every per-skeleton rate before aggregation. -/
theorem per_skeleton_floor_cex :
    runAligned cxTk cxBackendRefuse cxClassify "p3" ["sk"] 3 (1/20)
      = (.ok cxFull, 2) ∧
    cxFull.S_list = [0] ∧ cxFull.dbar = 0 ∧ cxFull.q_avg = 0 ∧
    ¬ (1 / ((3 : ℚ) + 2) ≤ 0) := by
  refine ⟨?_, rfl, rfl, rfl, by norm_num⟩
  simp [runAligned, estimateSignalsAligned, skelLoop, answerRate, q_bar, q_lo_fn,
    isr, cxTk, cxBackendRefuse, cxClassify, cxFull, Except.toOption, List.countP,
    List.countP.go]
  norm_num

/-- Claim C3 amended: the floor `1/(n+2)` is applied only to the
aggregate minimum — `q_cons = max(min(q_list), 1/(n+2)) ≥ 1/(n+2)` —
while the per-skeleton rates fed to the information gain (`S_list`) and
averaged into `q_avg` are the raw, unfloored rates
(`S_list = q_list`, `q_avg = q_bar q_list`). -/
theorem floor_applied_to_min_only (tk : Toolkit)
    (backend : String → Nat → Except String (List String))
    (classify : String → Decision) (prompt : String) (sks : List String)
    (n : Nat) (h_star : ℚ) (r : FullResult) (c : Nat)
    (h : runAligned tk backend classify prompt sks n h_star = (.ok r, c)) :
    r.q_cons = max (q_lo_fn r.q_list) (1 / ((n : ℚ) + 2)) ∧
    1 / ((n : ℚ) + 2) ≤ r.q_cons ∧
    r.S_list = r.q_list ∧ r.q_avg = q_bar r.q_list := by
  obtain ⟨h1, -, -, h4, h5, -, -, -⟩ := runAligned_ok _ _ _ _ _ _ _ _ _ h
  exact ⟨h5, h5 ▸ le_max_right _ _, h1, h4⟩

/-- Witness for Claim C3's amended theorem at a concrete run. -/
theorem floor_applied_to_min_only_witness :
    cxFull.q_cons = max (q_lo_fn cxFull.q_list) (1 / ((3 : ℚ) + 2)) ∧
    1 / ((3 : ℚ) + 2) ≤ cxFull.q_cons ∧
    cxFull.S_list = cxFull.q_list ∧ cxFull.q_avg = q_bar cxFull.q_list :=
  floor_applied_to_min_only cxTk cxBackendRefuse cxClassify "w3" ["sk"] 3 (1/20)
    cxFull 2
    (by simp [runAligned, estimateSignalsAligned, skelLoop, answerRate, q_bar, q_lo_fn,
      isr, cxTk, cxBackendRefuse, cxClassify, cxFull, Except.toOption, List.countP,
      List.countP.go]; norm_num)

/-- Claim C4 counterexample: with `n_samples = 3`, two skeletons and a
backend that declines on every skeleton sample, the reported statistics
are `q_avg = 0` but `q_lo = q_cons = 1/5` (the floored minimum), so the
claimed invariant chain `q_lo ≤ q_avg` fails. -/
theorem q_lo_le_q_avg_cex :
    runAligned cxTk cxBackendRefuse cxClassify "p4" ["s1", "s2"] 3 (1/20)
      = (.ok cxFull2, 3) ∧
    cxFull2.q_cons = 1/5 ∧ cxFull2.q_avg = 0 ∧
    ¬ (cxFull2.q_cons ≤ cxFull2.q_avg) := by
  refine ⟨?_, rfl, rfl, by norm_num [cxFull2]⟩
  simp [runAligned, estimateSignalsAligned, skelLoop, answerRate, q_bar, q_lo_fn,
    isr, cxTk, cxBackendRefuse, cxClassify, cxFull2, Except.toOption, List.countP,
    List.countP.go]
  norm_num

/-- Claim C4 amended: for every call reaching aggregation, the reported
statistics satisfy `0 ≤ q_lo ≤ 1`, `0 ≤ q_avg ≤ 1`,
`q_lo ≥ 1/(n+2)` and `q_lo ≤ max(q_avg, 1/(n+2))`; the chain
`q_lo ≤ q_avg` itself can fail (only) when the floor exceeds the raw
mean, because `q_avg` is not floored. -/
theorem stats_invariant_amended (tk : Toolkit)
    (backend : String → Nat → Except String (List String))
    (classify : String → Decision) (prompt : String) (sks : List String)
    (n : Nat) (h_star : ℚ) (r : FullResult) (c : Nat)
    (h : runAligned tk backend classify prompt sks n h_star = (.ok r, c)) :
    0 ≤ r.q_cons ∧ r.q_cons ≤ 1 ∧ 0 ≤ r.q_avg ∧ r.q_avg ≤ 1 ∧
    1 / ((n : ℚ) + 2) ≤ r.q_cons ∧
    r.q_cons ≤ max r.q_avg (1 / ((n : ℚ) + 2)) := by
  obtain ⟨-, hne, hbd, havg, hcons, -, -, -⟩ := runAligned_ok _ _ _ _ _ _ _ _ _ h
  have h0 : ∀ x ∈ r.q_list, 0 ≤ x := fun x hx => (hbd x hx).1
  have h1 : ∀ x ∈ r.q_list, x ≤ 1 := fun x hx => (hbd x hx).2
  have hfloor0 : (0 : ℚ) ≤ 1 / ((n : ℚ) + 2) := by positivity
  have hfloor1 : 1 / ((n : ℚ) + 2) ≤ 1 := by
    rw [div_le_one (by positivity)]
    have := Nat.cast_nonneg (α := ℚ) n
    linarith
  have hlo_le1 : q_lo_fn r.q_list ≤ 1 := h1 _ (q_lo_fn_mem r.q_list hne)
  rw [hcons, havg]
  exact ⟨le_trans hfloor0 (le_max_right _ _), max_le hlo_le1 hfloor1,
    q_bar_nonneg _ h0, q_bar_le_one _ h1, le_max_right _ _,
    max_le_max (q_lo_fn_le_q_bar _ hne) (le_refl _)⟩

/-- Witness for Claim C4's amended theorem at a concrete run. -/
theorem stats_invariant_amended_witness :
    0 ≤ cxFull2.q_cons ∧ cxFull2.q_cons ≤ 1 ∧
    0 ≤ cxFull2.q_avg ∧ cxFull2.q_avg ≤ 1 ∧
    1 / ((3 : ℚ) + 2) ≤ cxFull2.q_cons ∧
    cxFull2.q_cons ≤ max cxFull2.q_avg (1 / ((3 : ℚ) + 2)) :=
  stats_invariant_amended cxTk cxBackendRefuse cxClassify "w4" ["s1", "s2"] 3 (1/20)
    cxFull2 3
    (by simp [runAligned, estimateSignalsAligned, skelLoop, answerRate, q_bar, q_lo_fn,
      isr, cxTk, cxBackendRefuse, cxClassify, cxFull2, Except.toOption, List.countP,
      List.countP.go]; norm_num)

/-- Claim C7: for every non-empty items list, `validate_extraction_batch`
serializes the items, delegates to `validate_evidence_based` exactly once
(with the default `n_samples = 3`, `m = 4`, the augmented task
description and the serialized items as the output under test; the batch
call performs exactly the backend calls of that one delegate call), and
returns `valid_count = len(items)` when the delegate accepts and `0`
when it rejects — atomically. -/
theorem batch_atomic_delegation {α : Type} (tk : Toolkit)
    (backend : String → Nat → Except String (List String))
    (classify : String → Decision) (st : ValidatorState) (h_star : ℚ)
    (ser : List α → String) (task evidence : String)
    (items : List α) (item_type : String)
    (hne : items ≠ []) :
    validateExtractionBatch tk backend classify st h_star ser task evidence items item_type
      = (let out := validateEvidenceBased tk backend classify st h_star
           (task ++ "\n\nExtracted " ++ toString items.length ++ " " ++ item_type ++ ".")
           evidence (ser items) 3 4
         ⟨out.accept, out.risk_bound, out.rationale,
          if out.accept then items.length else 0, out.backend_calls⟩) := by
  cases items with
  | nil => exact absurd rfl hne
  | cons a t => rfl

/-- Witness for Claim C7's theorem at a one-element batch. -/
theorem batch_atomic_delegation_witness :
    validateExtractionBatch cxTk cxBackendRefuse cxClassify cxSt (1/20)
        (fun l => String.intercalate "," l) "t" "e" ["item1"] "items"
      = (let out := validateEvidenceBased cxTk cxBackendRefuse cxClassify cxSt (1/20)
           ("t" ++ "\n\nExtracted " ++ toString (["item1"].length) ++ " " ++ "items" ++ ".")
           "e" (String.intercalate "," ["item1"]) 3 4
         ⟨out.accept, out.risk_bound, out.rationale,
          if out.accept then (["item1"].length) else 0, out.backend_calls⟩) :=
  batch_atomic_delegation cxTk cxBackendRefuse cxClassify cxSt (1/20)
    (fun l => String.intercalate "," l) "t" "e" ["item1"] "items" (by simp)

/-- Claim C8: `validate_extraction_batch` on an empty items list returns
exactly `(True, 0.0, "no_items_to_validate", 0)` and performs no backend
calls, in both the aligned validator and the `EDFLValidator` wrapper. -/
theorem batch_empty_no_calls {α : Type} (tk : Toolkit)
    (backend : String → Nat → Except String (List String))
    (classify : String → Decision) (st : ValidatorState) (h_star : ℚ)
    (ser : List α → String) (task evidence item_type : String)
    (st2 : EDFLState) (alignedOut fallback : BatchOut) :
    validateExtractionBatch tk backend classify st h_star ser task evidence
        ([] : List α) item_type
      = ⟨true, 0, "no_items_to_validate", 0, 0⟩ ∧
    edflValidateExtractionBatch st2 ([] : List α) alignedOut fallback
      = ⟨true, 0, "no_items_to_validate", 0, 0⟩ :=
  ⟨rfl, rfl⟩

theorem foldl_push_eq_map {β : Type} (f : Nat → β) :
    ∀ (l : List Nat) (acc : List β),
      l.foldl (fun cs i => cs ++ [f i]) acc = acc ++ l.map f := by
  intro l
  induction l with
  | nil => intro acc; simp
  | cons b t ih => intro acc; simp [ih]

/-- Claim C9: in the Bedrock adapter's `multi_choice`, one failing
underlying call degrades only its own sample: for every `n` and every
pattern of per-attempt outcomes, the result is a list of exactly `n`
choices, and slot `i` holds the response text when attempt `i` succeeded
and the fallback content `"refuse"` when it raised. -/
theorem multi_choice_degrades_per_sample (call : Nat → Except String String) (n : Nat) :
    (multi_choice call n).length = n ∧
    ∀ i : Nat, i < n →
      (multi_choice call n).getD i "" =
        (match call i with | .ok s => s | .error _ => "refuse") := by
  have hm : multi_choice call n = (List.range n).map
      (fun i => match call i with | .ok s => s | .error _ => "refuse") := by
    unfold multi_choice
    rw [foldl_push_eq_map]
    simp
  constructor
  · rw [hm]; simp
  · intro i hi
    rw [hm, List.getD_eq_getElem?_getD, List.getElem?_map, List.getElem?_range hi]
    simp

/-- Witness for Claim C9's theorem: three attempts, the first succeeds,
the later ones raise; the result has length 3, keeps the successful
response in slot 0 and degrades slot 1 to `"refuse"`. -/
theorem multi_choice_degrades_per_sample_witness :
    (multi_choice cxCall 3).length = 3 ∧
    (multi_choice cxCall 3).getD 0 "" =
      (match cxCall 0 with | .ok s => s | .error _ => "refuse") ∧
    (multi_choice cxCall 3).getD 1 "" =
      (match cxCall 1 with | .ok s => s | .error _ => "refuse") :=
  ⟨(multi_choice_degrades_per_sample cxCall 3).1,
   (multi_choice_degrades_per_sample cxCall 3).2 0 (by decide),
   (multi_choice_degrades_per_sample cxCall 3).2 1 (by decide)⟩

/-- Claim C10: if the validator is constructed with
`enable_validation=False`, or its initialization raises, every
subsequent call to `validate_evidence_based` or `validate_closed_book`
— on the aligned validator and on the `EDFLValidator` wrapper alike —
returns exactly `(True, 0.0, "validation_disabled")` with no backend
calls: best-case risk `0.0`, not the worst-case `1.0` used for runtime
failures. -/
theorem disabled_reports_zero_risk (enable initOk : Bool) (tk : Toolkit)
    (backend : String → Nat → Except String (List String))
    (classify : String → Decision) (h_star : ℚ)
    (task evidence out question cbout : String) (nE mE nC mC : Nat)
    (alignedOut1 alignedOut2 standard1 standard2 : VOut)
    (hdis : enable = false ∨ initOk = false) :
    validateEvidenceBased tk backend classify (initAligned enable initOk) h_star
        task evidence out nE mE
      = ⟨true, 0, "validation_disabled", 0⟩ ∧
    validateClosedBook tk backend classify (initAligned enable initOk) h_star
        question cbout nC mC
      = ⟨true, 0, "validation_disabled", 0⟩ ∧
    edflValidateEvidenceBased (initEDFL enable initOk) alignedOut1 standard1
      = ⟨true, 0, "validation_disabled", 0⟩ ∧
    edflValidateClosedBook (initEDFL enable initOk) alignedOut2 standard2
      = ⟨true, 0, "validation_disabled", 0⟩ := by
  have hstA : initAligned enable initOk = ⟨false, false⟩ := by
    rcases hdis with h | h
    · subst h; cases initOk <;> rfl
    · subst h; cases enable <;> rfl
  have hstE : initEDFL enable initOk = ⟨false, false, false⟩ := by
    rcases hdis with h | h
    · subst h; cases initOk <;> rfl
    · subst h; cases enable <;> rfl
  rw [hstA, hstE]
  exact ⟨rfl, rfl, rfl, rfl⟩

/-- Witness for Claim C10's theorem with `enable_validation = False`. -/
theorem disabled_reports_zero_risk_witness :
    validateEvidenceBased cxTk cxBackendRefuse cxClassify (initAligned false true) (1/20)
        "t" "e" "o" 3 4
      = ⟨true, 0, "validation_disabled", 0⟩ ∧
    validateClosedBook cxTk cxBackendRefuse cxClassify (initAligned false true) (1/20)
        "q" "a" 3 4
      = ⟨true, 0, "validation_disabled", 0⟩ ∧
    edflValidateEvidenceBased (initEDFL false true)
        ⟨true, 0, "x", 0⟩ ⟨true, 0, "y", 0⟩
      = ⟨true, 0, "validation_disabled", 0⟩ ∧
    edflValidateClosedBook (initEDFL false true)
        ⟨true, 0, "x", 0⟩ ⟨true, 0, "y", 0⟩
      = ⟨true, 0, "validation_disabled", 0⟩ :=
  disabled_reports_zero_risk false true cxTk cxBackendRefuse cxClassify (1/20)
    "t" "e" "o" "q" "a" 3 4 3 4 ⟨true, 0, "x", 0⟩ ⟨true, 0, "x", 0⟩
    ⟨true, 0, "y", 0⟩ ⟨true, 0, "y", 0⟩ (Or.inl rfl)

end EDFL
